import Mathlib

/-!
Shallow embedding of `src/main.py` (avatar-api).

The Python file concatenates two variants of the same FastAPI app.  The
second variant's definitions (`Avatar.from_filename` at lines 250-254, the
handlers from line 256 on) shadow the first at module load, but the claims
cite code in both halves, so both are embedded here:

* variant 1 (lines 1-231): `Avatar.from_filename` strips `.png`/`.jpg`/
  `.jpeg` and joins the base URL with the raw filename; handlers
  `get_all_avatars`, `get_avatar_by_name`, `get_random_avatars`,
  `get_avatar_stats`, `get_avatar_image`; startup catalog of 144 filenames.
* variant 2 (lines 233-358): `Avatar.from_filename` strips only `.png`
  and percent-encodes spaces in the URL; handlers `get_avatars`,
  `get_avatar`; startup catalog `FILENAMES` of 5 filenames.

Python strings are `String`, `str.lower()` is `pyLower` (all data is
ASCII), `str.replace` is `pyReplace`, the `in` substring test is `strHas`,
`s.split(sep)[-1]` is `lastSplit`, and the module-global
dict `avatar_dict` is modelled by its only observable operation, `.get`,
as a function `String → Option Avatar` built by `buildDict`.
-/

set_option maxRecDepth 100000

/-- `List.isPrefixOf` test used to implement Python's substring operator. -/
def charsHas (needle : List Char) : List Char → Bool
  | [] => needle.isEmpty
  | c :: rest => needle.isPrefixOf (c :: rest) || charsHas needle rest

/-- Python's `needle in hay` substring containment on strings. -/
def strHas (needle hay : String) : Bool :=
  charsHas needle.data hay.data

/-- Python `str.lower()` on a character (identity outside ASCII uppercase,
which covers every character this program handles). -/
def lowerChar (c : Char) : Char :=
  if 'A' ≤ c ∧ c ≤ 'Z' then Char.ofNat (c.toNat + 32) else c

/-- Python `s.lower()`. -/
def pyLower (s : String) : String :=
  ⟨s.data.map lowerChar⟩

/-- One step bound for the fuelled scans below: a scan over `l` consumes at
least one character per step, so `l.length` fuel always suffices. -/
def replaceCharsAux (pat repl : List Char) : Nat → List Char → List Char
  | _, [] => []
  | 0, l => l
  | fuel + 1, c :: rest =>
    if pat.isPrefixOf (c :: rest) ∧ pat ≠ [] then
      repl ++ replaceCharsAux pat repl fuel (rest.drop (pat.length - 1))
    else
      c :: replaceCharsAux pat repl fuel rest

/-- Python `str.replace(pat, repl)` on character lists: every
non-overlapping occurrence of `pat`, scanning left to right, is replaced by
`repl`.  (Python's corner case of an empty `pat` never occurs in this
program; an empty `pat` here never matches.) -/
def replaceChars (pat repl l : List Char) : List Char :=
  replaceCharsAux pat repl l.length l

/-- Python `s.replace(pat, repl)`. -/
def pyReplace (s pat repl : String) : String :=
  ⟨replaceChars pat.data repl.data s.data⟩

/-- Fuelled splitter implementing Python `str.split(sep)` for a non-empty
separator: non-overlapping occurrences of `sep`, scanned left to right, cut
the list; `acc` holds the current chunk reversed. -/
def splitCharsAux (sep : List Char) : Nat → List Char → List Char →
    List (List Char)
  | _, acc, [] => [acc.reverse]
  | 0, acc, l => [acc.reverse ++ l]
  | fuel + 1, acc, c :: rest =>
    if sep.isPrefixOf (c :: rest) ∧ sep ≠ [] then
      acc.reverse :: splitCharsAux sep fuel [] (rest.drop (sep.length - 1))
    else
      splitCharsAux sep fuel (c :: acc) rest

/-- Python `s.split(sep)` (always a non-empty list). -/
def pySplit (s sep : String) : List String :=
  (splitCharsAux sep.data s.data.length [] s.data).map List.asString

/-- Python `s.split(sep)[-1]`: Python's `[-1]` on the (always non-empty)
split result. -/
def lastSplit (s sep : String) : String :=
  (pySplit s sep).getLastD ""

/-- `urllib.parse.urljoin` restricted to how this program calls it: the base
URL ends in `/` and the second argument is a plain relative filename, so the
join is string concatenation. -/
def urljoin (base ref : String) : String :=
  base ++ ref

/-- `BASE_AVATAR_URL` (src/main.py lines 11 and 243). -/
def BASE_AVATAR_URL : String :=
  "http://www.tam-files.toko-aplikasi.my.id/images/avatars/"

/-- The `Avatar` dataclass (name and imageurl). -/
structure Avatar where
  name : String
  imageurl : String
deriving DecidableEq, Repr

/-- Variant 1 `Avatar.from_filename` (src/main.py lines 18-23):
`name = filename.replace('.png','').replace('.jpg','').replace('.jpeg','')`,
`imageurl = urljoin(BASE_AVATAR_URL, filename)`. -/
def Avatar.from_filename (filename : String) : Avatar :=
  { name := pyReplace (pyReplace (pyReplace filename ".png" "") ".jpg" "") ".jpeg" ""
    imageurl := urljoin BASE_AVATAR_URL filename }

/-- Variant 2 `Avatar.from_filename` (src/main.py lines 250-254):
`name = filename.replace('.png','')`,
`imageurl = urljoin(BASE_AVATAR_URL, filename.replace(' ', '%20'))`. -/
def Avatar.from_filename_v2 (filename : String) : Avatar :=
  { name := pyReplace filename ".png" ""
    imageurl := urljoin BASE_AVATAR_URL (pyReplace filename " " "%20") }

/-- The hardcoded filename list of variant 1 (src/main.py lines 52-101). -/
def filenames : List String :=
  ["Abraham Baker.png", "Adem Lane.png", "Adil Floyd.png",
   "Adriana O'Sullivan.png", "Alec Whitten.png", "Alesha Barry.png",
   "Ali Mahdi.png", "Aliah Lane.png", "Alisa Hester.png",
   "Amanda Lowery.png", "Amelie Bennett.png", "Amelie Laurent.png",
   "Ammar Foley.png", "Anaiah Whitten.png", "Andi Lane.png",
   "Angelica Wallace.png", "Anita Cruz.png", "Ashton Blackwell.png",
   "Ashwin Santiago.png", "Aston Hood.png", "Ava Bentley.png",
   "Ava Wright.png", "Ayah Wilkinson.png", "Aysha Becker.png",
   "Bailey Richards.png", "Bec Ferguson.png", "Belle Woods.png",
   "Benedict Doherty.png", "Billie Wright.png", "Blake Riley.png",
   "Brianna Ware.png", "Byron Robertson.png", "Caitlyn King.png",
   "Cameron Yang.png", "Candice Wu.png", "Clifford Jennings.png",
   "Cohen Lozano.png", "Courtney Turner.png", "Danyal Lester.png",
   "Demi Wilkinson.png", "Dillan Nguyen.png", "Drew Cano.png",
   "Eduard Franz.png", "Elena Owens.png", "Elisa Nishikawa.png",
   "Elsie Roy.png", "Erica Wyatt.png", "Ethan Campbell.png",
   "Ethan Valdez.png", "Eva Bond.png", "Eve Leroy.png",
   "Fergus Gray.png", "Fleur Cook.png", "Florence Shaw.png",
   "Frank Whitaker.png", "Franklin Mays.png", "Freya Browning.png",
   "Genevieve Mclean.png", "Harriet Rojas.png", "Harry Bender.png",
   "Hasan Johns.png", "Herbert Fowler.png", "Isla Allison.png",
   "Isobel Carroll.png", "Isobel Fuller.png", "Jackson Reed.png",
   "Jay Shepard.png", "Jaya Willis.png", "Jayden Moss.png",
   "Jessie Meyton.png", "Jonathan Kelly.png", "Jordan Burgess.png",
   "Joshua Wilson.png", "Julius Vaughan.png", "Kaden Scott.png",
   "Kaitlin Hale.png", "Kari Rasmussen.png", "Kate Morrison.png",
   "Katherine Moss.png", "Katy Fuller.png", "Kelly Williams.png",
   "Kelsey Lowe.png", "Koray Okumus.png", "Kyla Clay.png",
   "Lana Steiner.png", "Levi Rocha.png", "Leyton Fields.png",
   "Liam Hood.png", "Lily-Rose Chedjou.png", "Loki Bright.png",
   "Lola Sanders.png", "Lori Bryson.png", "Lucy Bond.png",
   "Lulu Meyers.png", "Luqman Anthony.png", "Lyle Kauffman.png",
   "Maddison Gillespie.png", "Madeleine Pitts.png", "Marco Gross.png",
   "Marco Kelly.png", "Marvin Robbins.png", "Mathilde Lewis.png",
   "Maxwell Tan.png", "Mikey Lawrence.png", "Mollie Hall.png",
   "Molly Vaughan.png", "Nala Goins.png", "Natali Craig.png",
   "Nic Fassbender.png", "Nicola Harris.png", "Nicolas Trevino.png",
   "Nicolas Wang.png", "Nikolas Gibbons.png", "Noah Pierre.png",
   "Noel Baldwin.png", "Olivia Rhye.png", "Olly Schroeder.png",
   "Orlando Diggs.png", "Owen Garcia.png", "Owen Harding.png",
   "Phoenix Baker.png", "Pippa Wilkinson.png", "Priya Shepard.png",
   "Rachael Strong.png", "Rayhan Zua.png", "Rene Wells.png",
   "Rhea Levine.png", "Rhianna Shepard.png", "Riley O'Moore.png",
   "Rory Huff.png", "Rosalee Melvin.png", "Sally Mason.png",
   "Sarah Page.png", "Scott Clayton.png", "Sienna Hewitt.png",
   "Sophia Perez.png", "Stefan Sears.png", "Youssef Roberson.png",
   "Zahir Mays.png", "Zahra Christensen.png", "Zaid Schwartz.png",
   "Zara Bush.png", "Zaynab Donnelly.png", "Zuzanna Burke.png"]

/-- Variant 1 startup catalog:
`avatar_cache = [Avatar.from_filename(f) for f in filenames]` (line 103). -/
def avatar_cache : List Avatar :=
  filenames.map Avatar.from_filename

/-- The `FILENAMES` constant of variant 2 (src/main.py lines 273-280). -/
def FILENAMES : List String :=
  ["Abraham Baker.png", "Adem Lane.png", "Adil Floyd.png",
   "Adriana O'Sullivan.png", "Alec Whitten.png"]

/-- Variant 2 startup catalog (src/main.py line 288). -/
def avatar_cache_v2 : List Avatar :=
  FILENAMES.map Avatar.from_filename_v2

/-- The empty dict. -/
def emptyDict : String → Option Avatar := fun _ => none

/-- One assignment `d[k] = v` of a Python dict, observed through `.get`. -/
def dictInsert (d : String → Option Avatar) (k : String) (v : Avatar) :
    String → Option Avatar :=
  fun q => if q = k then some v else d q

/-- The dict comprehension
`{avatar.name.lower(): avatar for avatar in cache}` (lines 104 and 289),
modelled through its only used operation `.get`: keys are assigned in
iteration order, later assignments overwriting earlier ones. -/
def buildDict (cache : List Avatar) : String → Option Avatar :=
  cache.foldl (fun d a => dictInsert d (pyLower a.name) a) emptyDict

/-- Variant 1 `avatar_dict` (src/main.py line 104). -/
def avatar_dict : String → Option Avatar :=
  buildDict avatar_cache

/-- The response-record shape `{name, imageurl, filename}` that every
endpoint emits. -/
structure AvatarOut where
  name : String
  imageurl : String
  filename : String
deriving DecidableEq, Repr

/-- `{"name": a.name, "imageurl": a.imageurl,
     "filename": a.imageurl.split('/')[-1]}` — the record serialization
repeated at src/main.py lines 139-143, 166-170, 190-194, 325-330, 347-351. -/
def toOut (a : Avatar) : AvatarOut :=
  { name := a.name
    imageurl := a.imageurl
    filename := lastSplit a.imageurl "/" }

/-- `fastapi.HTTPException(status_code, detail)`. -/
structure HTTPError where
  status_code : Nat
  detail : Option String
deriving DecidableEq, Repr

/-- The search-filter step shared by both list handlers
(src/main.py lines 131-133 and 318-320): Python's `if search:` is false for
`None` and for the empty string. -/
def searchFiltered (cache : List Avatar) (search : Option String) :
    List Avatar :=
  match search with
  | none => cache
  | some s =>
    if s = "" then cache
    else cache.filter (fun a => strHas (pyLower s) (pyLower a.name))

/-- Variant 1 `get_all_avatars` (src/main.py lines 116-145), with the
module-global `avatar_cache` passed explicitly.  `skip ≥ 0` and
`1 ≤ limit ≤ 200` are enforced by FastAPI's `Query` validators before the
handler runs; the Python slice `avatars[skip : skip+limit]` for
`0 ≤ skip` and `0 ≤ limit` is drop-then-take. -/
def get_all_avatars (cache : List Avatar) (skip limit : Nat)
    (search : Option String) : List AvatarOut :=
  let avatars := searchFiltered cache search
  let paginated := (avatars.drop skip).take limit
  paginated.map toOut

/-- Variant 2 `get_avatars` (src/main.py lines 310-331); same body as
variant 1, with `1 ≤ limit ≤ 100` enforced by FastAPI. -/
def get_avatars (cache : List Avatar) (skip limit : Nat)
    (search : Option String) : List AvatarOut :=
  let avatars := searchFiltered cache search
  let paginated := (avatars.drop skip).take limit
  paginated.map toOut

/-- Variant 1 `get_avatar_by_name` (src/main.py lines 148-170): exact
(lowercased) dict lookup, then first substring match in catalog order, then
404 with detail `Avatar '<name>' not found`. -/
def get_avatar_by_name (cache : List Avatar) (dict : String → Option Avatar)
    (avatar_name : String) : Except HTTPError AvatarOut :=
  let avatar := dict (pyLower avatar_name)
  let avatar :=
    match avatar with
    | some a => some a
    | none =>
      (cache.filter (fun a => strHas (pyLower avatar_name) (pyLower a.name))).head?
  match avatar with
  | none => .error ⟨404, some ("Avatar '" ++ avatar_name ++ "' not found")⟩
  | some a => .ok (toOut a)

/-- Contract of Python's `random.sample(l, k)` for `k ≤ len(l)`: `k`
elements drawn at distinct positions of `l`, i.e. a permutation of some
sublist of `l` of length `k`.  The handler is parametrised over any such
sampler, abstracting the random number generator. -/
def IsSampler (sample : List Avatar → Nat → List Avatar) : Prop :=
  ∀ (l : List Avatar) (k : Nat), k ≤ l.length →
    ∃ sub : List Avatar,
      sub.Sublist l ∧ (sample l k).Perm sub ∧ (sample l k).length = k

/-- Variant 1 `get_random_avatars` (src/main.py lines 173-196): reject
`count < 1` with a 400, clamp `count > 50` to 50, then
`random.sample(avatar_cache, min(count, len(avatar_cache)))`. -/
def get_random_avatars (sample : List Avatar → Nat → List Avatar)
    (cache : List Avatar) (count : Int) : Except HTTPError (List AvatarOut) :=
  if count < 1 then
    .error ⟨400, some "Count must be at least 1"⟩
  else
    let count := if count > 50 then (50 : Int) else count
    let selected := sample cache (min count.toNat cache.length)
    .ok (selected.map toOut)

/-- The stats payload of `get_avatar_stats`; the Python `set` of file types
is a `Finset`. -/
structure StatsOut where
  total_avatars : Nat
  base_url : String
  file_types : Finset String
  sample_avatars : List (String × String)
deriving DecidableEq

/-- Variant 1 `get_avatar_stats` (src/main.py lines 199-209). -/
def get_avatar_stats (cache : List Avatar) : StatsOut :=
  { total_avatars := cache.length
    base_url := BASE_AVATAR_URL
    file_types :=
      (((cache.map (fun a => a.imageurl)).map
        (fun url => lastSplit url "."))).toFinset
    sample_avatars := (cache.take 5).map (fun a => (a.name, a.imageurl)) }

/-- Variant 1 `get_avatar_image` (src/main.py lines 212-223): exact dict
lookup only; a miss raises `HTTPException(404)` with no detail; a hit
returns the fetched bytes with the hardcoded media type `image/png`.  The
outbound `httpx` GET is abstracted as a function `fetch` from URL to body. -/
def get_avatar_image (dict : String → Option Avatar)
    (fetch : String → List Nat) (avatar_name : String) :
    Except HTTPError (List Nat × String) :=
  match dict (pyLower avatar_name) with
  | none => .error ⟨404, none⟩
  | some a => .ok (fetch a.imageurl, "image/png")

/-! ## Derived-instance and helper lemmas -/

deriving instance DecidableEq for Except

/-- Both list handlers compute
`((searchFiltered cache search).drop skip).take limit`, mapped to output
records; this unfolding is shared by several proofs. -/
theorem get_all_avatars_eq (cache : List Avatar) (skip limit : Nat)
    (search : Option String) :
    get_all_avatars cache skip limit search
      = (((searchFiltered cache search).drop skip).take limit).map toOut :=
  rfl

/-! ## Claims -/

/-- C1: for every `skip ≥ 0` and `limit` in the allowed bounded range,
the list endpoint returns at most `limit` records; its length is exactly
`min limit (filteredCount - skip)`; its `i`-th element is the output record
of the `(skip+i)`-th element of the (optionally search-filtered) ordered
catalog, i.e. the slice `[skip, skip+limit)` clamped to the catalog bounds;
requesting past the end yields `[]`, never an error; and the variant-2
handler `get_avatars` computes the same function. -/
theorem list_pagination_spec (cache : List Avatar) (skip limit : Nat)
    (search : Option String) (h1 : 1 ≤ limit) (h2 : limit ≤ 200) :
    (get_all_avatars cache skip limit search).length ≤ limit ∧
    (get_all_avatars cache skip limit search).length
      = min limit ((searchFiltered cache search).length - skip) ∧
    (∀ i (hi : i < (get_all_avatars cache skip limit search).length),
      ∃ hb : skip + i < (searchFiltered cache search).length,
        (get_all_avatars cache skip limit search).get ⟨i, hi⟩
          = toOut ((searchFiltered cache search).get ⟨skip + i, hb⟩)) ∧
    ((searchFiltered cache search).length ≤ skip →
      get_all_avatars cache skip limit search = []) ∧
    get_avatars cache skip limit search
      = get_all_avatars cache skip limit search := by
  refine ⟨?_, ?_, ?_, ?_, rfl⟩
  · simp [get_all_avatars_eq]
  · simp [get_all_avatars_eq]
  · intro i hi
    simp only [get_all_avatars_eq, List.length_map, List.length_take,
      List.length_drop, lt_min_iff] at hi
    refine ⟨by omega, ?_⟩
    simp only [get_all_avatars_eq, List.get_eq_getElem, List.getElem_map,
      List.getElem_take, List.getElem_drop]
  · intro hle
    simp [get_all_avatars_eq, List.drop_eq_nil_of_le hle]

/-- C1 witness: instantiation at the variant-1 startup catalog,
`skip = 0`, `limit = 5`, no search. -/
theorem list_pagination_spec_witness :
    (get_all_avatars avatar_cache 0 5 none).length ≤ 5 :=
  (list_pagination_spec avatar_cache 0 5 none (by decide) (by decide)).1

/-- The search filter only ever removes records, keeping catalog order. -/
theorem searchFiltered_sublist (cache : List Avatar) (search : Option String) :
    (searchFiltered cache search).Sublist cache := by
  unfold searchFiltered
  cases search with
  | none => exact List.Sublist.refl _
  | some s =>
    by_cases h : s = ""
    · simp [h]
    · simp only [h, if_false]
      exact List.filter_sublist _

/-- C2 counterexample: the claim requires `List(search="ana")` to include
the record named "Amanda Lowery", but "amanda lowery" does not contain the
substring "ana", so the filtered result (here taken with the maximal window
`skip=0`, `limit=200`, which covers the whole 144-record catalog) omits it. -/
theorem search_ana_counterexample :
    ((get_all_avatars avatar_cache 0 200 (some "ana")).map
      (fun r => r.name)).contains "Amanda Lowery" = false := by decide

/-- C2 (amended): the search filter is case-insensitive substring
containment on the record name and preserves catalog order (the returned
names always form a sublist of the catalog's names); over the hardcoded
catalog, `List(search="ana")` returns exactly "Adriana O'Sullivan",
"Anaiah Whitten" and "Lana Steiner", so it includes "Anaiah Whitten" and
excludes both "Byron Robertson" and "Amanda Lowery". -/
theorem search_filter_spec :
    (∀ (s : String) (skip limit : Nat),
      ((get_all_avatars avatar_cache skip limit (some s)).map
        (fun r => r.name)).Sublist (avatar_cache.map (fun a => a.name))) ∧
    (get_all_avatars avatar_cache 0 200 (some "ana")).map (fun r => r.name)
      = ["Adriana O'Sullivan", "Anaiah Whitten", "Lana Steiner"] := by
  constructor
  · intro s skip limit
    rw [get_all_avatars_eq, List.map_map]
    have hcomp : ((fun r : AvatarOut => r.name) ∘ toOut)
        = fun a : Avatar => a.name := rfl
    rw [hcomp]
    exact List.Sublist.map _
      (((List.take_sublist _ _).trans (List.drop_sublist _ _)).trans
        (searchFiltered_sublist _ _))
  · decide

/-- "lane" is not a key of the lowercased-name index (no avatar is named
exactly "Lane"). -/
theorem avatar_dict_lane : avatar_dict (pyLower "Lane") = none := by decide

/-- `GetByName("Lane")` resolves through the partial-match fallback to the
first catalog record whose name contains "lane": "Adem Lane". -/
theorem get_by_name_lane :
    get_avatar_by_name avatar_cache avatar_dict "Lane"
      = .ok ⟨"Adem Lane",
          "http://www.tam-files.toko-aplikasi.my.id/images/avatars/Adem Lane.png",
          "Adem Lane.png"⟩ := by decide

/-- C3: `GetByName` tries a case-insensitive exact match against the index
first (an index hit is returned even when substring matches also exist);
only on a miss does it fall back to the first record in catalog order whose
name contains the query case-insensitively; when neither matches it raises
a 404 whose detail is `Avatar '<name>' not found`.  Concretely,
`GetByName("OLIVIA RHYE")` returns the "Olivia Rhye" record and
`GetByName("Lane")` returns "Adem Lane", the first catalog-order record
containing "lane". -/
theorem get_by_name_spec :
    (∀ n : String,
      avatar_dict (pyLower n) = none →
      (avatar_cache.filter (fun a => strHas (pyLower n) (pyLower a.name)))
          = [] →
      get_avatar_by_name avatar_cache avatar_dict n
        = .error ⟨404, some ("Avatar '" ++ n ++ "' not found")⟩) ∧
    (∀ (n : String) (a : Avatar),
      avatar_dict (pyLower n) = some a →
      get_avatar_by_name avatar_cache avatar_dict n = .ok (toOut a)) ∧
    (∀ (n : String) (a : Avatar),
      avatar_dict (pyLower n) = none →
      (avatar_cache.filter
        (fun x => strHas (pyLower n) (pyLower x.name))).head? = some a →
      get_avatar_by_name avatar_cache avatar_dict n = .ok (toOut a)) ∧
    get_avatar_by_name avatar_cache avatar_dict "OLIVIA RHYE"
      = .ok ⟨"Olivia Rhye",
          "http://www.tam-files.toko-aplikasi.my.id/images/avatars/Olivia Rhye.png",
          "Olivia Rhye.png"⟩ ∧
    get_avatar_by_name avatar_cache avatar_dict "Lane"
      = .ok ⟨"Adem Lane",
          "http://www.tam-files.toko-aplikasi.my.id/images/avatars/Adem Lane.png",
          "Adem Lane.png"⟩ := by
  refine ⟨?_, ?_, ?_, by decide, get_by_name_lane⟩
  · intro n h1 h2
    simp [get_avatar_by_name, h1, h2]
  · intro n a h1
    simp [get_avatar_by_name, h1]
  · intro n a h1 h2
    simp [get_avatar_by_name, h1, h2]

/-- C3 witness: the 404 branch at the concrete query "doesnotexist". -/
theorem get_by_name_spec_witness :
    get_avatar_by_name avatar_cache avatar_dict "doesnotexist"
      = .error ⟨404, some "Avatar 'doesnotexist' not found"⟩ :=
  get_by_name_spec.1 "doesnotexist" (by decide) (by decide)

/-- Output records preserve name and imageurl, so distinct avatars give
distinct output records. -/
theorem toOut_injective : Function.Injective toOut := by
  intro a b h
  cases a; cases b
  simp only [toOut, AvatarOut.mk.injEq] at h
  rw [h.1, h.2.1]

/-- C4: `RandomSample(count)` rejects `count < 1` with a 400 error; for
`count ≥ 1` it silently clamps to 50 and returns exactly
`min (min count 50) catalogSize` records drawn (by any sampler satisfying
`random.sample`'s contract) from the catalog, pairwise distinct whenever
the catalog's records are; the empty catalog yields `ok []`, never an
error; and `count = 1000` yields exactly `min 50 catalogSize` records. -/
theorem random_sample_spec (sample : List Avatar → Nat → List Avatar)
    (hs : IsSampler sample) :
    (∀ (cache : List Avatar) (count : Int), count < 1 →
      get_random_avatars sample cache count
        = .error ⟨400, some "Count must be at least 1"⟩) ∧
    (∀ (cache : List Avatar) (count : Int), 1 ≤ count →
      ∃ xs : List Avatar,
        get_random_avatars sample cache count = .ok (xs.map toOut) ∧
        xs.length = min (min count.toNat 50) cache.length ∧
        (∀ x ∈ xs, x ∈ cache) ∧
        (cache.Nodup → (xs.map toOut).Nodup)) ∧
    (∀ count : Int, 1 ≤ count →
      get_random_avatars sample [] count = .ok []) ∧
    (∀ cache : List Avatar,
      ∃ xs : List Avatar,
        get_random_avatars sample cache 1000 = .ok (xs.map toOut) ∧
        xs.length = min 50 cache.length) := by
  have key : ∀ (cache : List Avatar) (count : Int), 1 ≤ count →
      ∃ xs : List Avatar,
        get_random_avatars sample cache count = .ok (xs.map toOut) ∧
        xs.length = min (min count.toNat 50) cache.length ∧
        (∀ x ∈ xs, x ∈ cache) ∧
        (cache.Nodup → (xs.map toOut).Nodup) := by
    intro cache count hc
    have hnotlt : ¬ count < 1 := by omega
    set count2 : Int := if count > 50 then (50 : Int) else count with hcount2
    have hk : min count2.toNat cache.length ≤ cache.length :=
      Nat.min_le_right _ _
    obtain ⟨sub, hsub, hperm, hlen⟩ := hs cache _ hk
    refine ⟨sample cache (min count2.toNat cache.length), ?_, ?_, ?_, ?_⟩
    · simp [get_random_avatars, hnotlt]
    · rw [hlen, hcount2]
      by_cases h50 : count > 50 <;> simp [h50] <;> omega
    · intro x hx
      exact (hsub.subset) (hperm.mem_iff.mp hx)
    · intro hnd
      exact ((hperm.nodup_iff).mpr (hsub.nodup hnd)).map toOut_injective
  refine ⟨?_, key, ?_, ?_⟩
  · intro cache count hc
    simp [get_random_avatars, hc]
  · intro count hc
    obtain ⟨xs, hok, hlen, -, -⟩ := key [] count hc
    rw [hok]
    simp only [List.length_nil, Nat.min_zero, List.length_eq_zero] at hlen
    simp [hlen]
  · intro cache
    obtain ⟨xs, hok, hlen, -, -⟩ := key cache 1000 (by omega)
    exact ⟨xs, hok, by simpa using hlen⟩

/-- Taking the first `k` catalog records satisfies `random.sample`'s
contract (`k` elements at distinct positions), instantiating the sampler. -/
theorem take_isSampler : IsSampler (fun l k => l.take k) := by
  intro l k hk
  exact ⟨l.take k, List.take_sublist _ _, List.Perm.refl _, by
    simp [List.length_take]; omega⟩

/-- C4 witness: the 400 branch at `count = 0` over the startup catalog,
with the take-sampler. -/
theorem random_sample_spec_witness :
    get_random_avatars (fun l k => l.take k) avatar_cache 0
      = .error ⟨400, some "Count must be at least 1"⟩ :=
  (random_sample_spec _ take_isSampler).1 avatar_cache 0 (by decide)

/-- C5: `Stats()` reports a total equal to the catalog size (144), the
configured base URL, the set of exactly the distinct file-extension
suffixes appearing in the image URLs — `{"png"}`, since every filename
ends in `.png` — and the first five catalog records, in order, as
(name, url) pairs. -/
theorem stats_spec :
    (get_avatar_stats avatar_cache).total_avatars = avatar_cache.length ∧
    avatar_cache.length = 144 ∧
    (get_avatar_stats avatar_cache).base_url = BASE_AVATAR_URL ∧
    (get_avatar_stats avatar_cache).file_types = {"png"} ∧
    (get_avatar_stats avatar_cache).sample_avatars
      = (avatar_cache.take 5).map (fun a => (a.name, a.imageurl)) ∧
    (get_avatar_stats avatar_cache).sample_avatars.map Prod.fst
      = ["Abraham Baker", "Adem Lane", "Adil Floyd", "Adriana O'Sullivan",
         "Alec Whitten"] := by
  refine ⟨rfl, by decide, rfl, by decide, rfl, by decide⟩

/-- A successful `GetByName` response is always the serialization of some
avatar record. -/
theorem get_avatar_by_name_ok_shape (cache : List Avatar)
    (dict : String → Option Avatar) (n : String) (r : AvatarOut)
    (h : get_avatar_by_name cache dict n = .ok r) : ∃ a, r = toOut a := by
  rcases hd : dict (pyLower n) with - | a
  · rcases hh : (cache.filter
        (fun a => strHas (pyLower n) (pyLower a.name))).head? with - | b
    · simp [get_avatar_by_name, hd, hh] at h
    · simp only [get_avatar_by_name, hd, hh] at h
      exact ⟨b, by injection h with h; exact h.symm⟩
  · simp only [get_avatar_by_name, hd] at h
    exact ⟨a, by injection h with h; exact h.symm⟩

/-- C6 counterexample: with the catalog built from
`["Abraham Baker.png", "Adem Lane.png"]` by the cited catalog builder
(src/main.py lines 250-254, which percent-encodes spaces into `imageurl`),
`List` with `limit = 1` does not return a record whose filename field is
`"Abraham Baker.png"` — the actual filename is `"Abraham%20Baker.png"`. -/
theorem record_filename_counterexample :
    ((get_avatars (["Abraham Baker.png", "Adem Lane.png"].map
        Avatar.from_filename_v2) 0 1 none).map (fun r => r.filename))
      ≠ ["Abraham Baker.png"] := by decide

/-- C6 (amended): every response record emitted by `List` (both variants),
`GetByName` and `RandomSample` is shaped `{name, imageurl, filename}` with
`filename` the last path segment of `imageurl`; with the catalog built
from `["Abraham Baker.png", "Adem Lane.png"]` by the cited builder, `List`
with `limit = 1` returns exactly one record named "Abraham Baker" whose
filename field is `"Abraham%20Baker.png"`, the last path segment of the
percent-encoded `imageurl`. -/
theorem record_shape_spec :
    (∀ (cache : List Avatar) (skip limit : Nat) (search : Option String),
      ∀ r ∈ get_all_avatars cache skip limit search,
        r.filename = lastSplit r.imageurl "/") ∧
    (∀ (cache : List Avatar) (skip limit : Nat) (search : Option String),
      ∀ r ∈ get_avatars cache skip limit search,
        r.filename = lastSplit r.imageurl "/") ∧
    (∀ (cache : List Avatar) (dict : String → Option Avatar) (n : String)
        (r : AvatarOut),
      get_avatar_by_name cache dict n = .ok r →
        r.filename = lastSplit r.imageurl "/") ∧
    (∀ (sample : List Avatar → Nat → List Avatar) (cache : List Avatar)
        (count : Int) (xs : List AvatarOut),
      get_random_avatars sample cache count = .ok xs →
        ∀ r ∈ xs, r.filename = lastSplit r.imageurl "/") ∧
    get_avatars (["Abraham Baker.png", "Adem Lane.png"].map
        Avatar.from_filename_v2) 0 1 none
      = [⟨"Abraham Baker",
          "http://www.tam-files.toko-aplikasi.my.id/images/avatars/Abraham%20Baker.png",
          "Abraham%20Baker.png"⟩] := by
  refine ⟨?_, ?_, ?_, ?_, by decide⟩
  · intro cache skip limit search r hr
    obtain ⟨a, -, rfl⟩ := List.mem_map.mp hr
    rfl
  · intro cache skip limit search r hr
    obtain ⟨a, -, rfl⟩ := List.mem_map.mp hr
    rfl
  · intro cache dict n r h
    obtain ⟨a, rfl⟩ := get_avatar_by_name_ok_shape cache dict n r h
    rfl
  · intro sample cache count xs h r hr
    by_cases hc : count < 1
    · simp [get_random_avatars, hc] at h
    · simp only [get_random_avatars, hc, if_false] at h
      injection h with h
      rw [← h] at hr
      obtain ⟨a, -, rfl⟩ := List.mem_map.mp hr
      rfl

/-- C6 witness: the shape law applied to the one record returned by the
variant-1 list handler over a one-record catalog. -/
theorem record_shape_spec_witness :
    (toOut (Avatar.from_filename "Abraham Baker.png")).filename
      = lastSplit (toOut (Avatar.from_filename "Abraham Baker.png")).imageurl
          "/" :=
  record_shape_spec.1 [Avatar.from_filename "Abraham Baker.png"] 0 5 none
    (toOut (Avatar.from_filename "Abraham Baker.png")) (by decide)

/-- C7: the image proxy resolves the name by case-insensitive exact index
lookup only: an index miss yields a 404 with no detail (even for names such
as "Lane" that `GetByName` would resolve by partial match), and an index
hit relays whatever the outbound fetch of the record's `imageurl` returns,
always tagged with the fixed `image/png` content type, whatever `fetch`
does. -/
theorem image_proxy_spec :
    (∀ (fetch : String → List Nat) (n : String),
      avatar_dict (pyLower n) = none →
        get_avatar_image avatar_dict fetch n = .error ⟨404, none⟩) ∧
    (∀ (fetch : String → List Nat) (n : String) (a : Avatar),
      avatar_dict (pyLower n) = some a →
        get_avatar_image avatar_dict fetch n
          = .ok (fetch a.imageurl, "image/png")) ∧
    (∀ fetch : String → List Nat,
      get_avatar_image avatar_dict fetch "Lane" = .error ⟨404, none⟩) := by
  refine ⟨?_, ?_, ?_⟩
  · intro fetch n h
    simp [get_avatar_image, h]
  · intro fetch n a h
    simp [get_avatar_image, h]
  · intro fetch
    simp [get_avatar_image, avatar_dict_lane]

/-- C7 witness: the 404 branch at the concrete name "Lane" with a concrete
fetch function. -/
theorem image_proxy_spec_witness :
    get_avatar_image avatar_dict (fun _ => []) "Lane"
      = .error ⟨404, none⟩ :=
  image_proxy_spec.1 (fun _ => []) "Lane" avatar_dict_lane

/-- C10: the name "Lane" is resolvable only through `GetByName`'s
partial-match fallback: `GET /api/avatars/Lane` returns the "Adem Lane"
record, while the image proxy's exact-match-only lookup returns a 404 for
the very same name, whatever the outbound fetch would return. -/
theorem partial_match_vs_proxy :
    get_avatar_by_name avatar_cache avatar_dict "Lane"
      = .ok ⟨"Adem Lane",
          "http://www.tam-files.toko-aplikasi.my.id/images/avatars/Adem Lane.png",
          "Adem Lane.png"⟩ ∧
    avatar_dict (pyLower "Lane") = none ∧
    (∀ fetch : String → List Nat,
      get_avatar_image avatar_dict fetch "Lane" = .error ⟨404, none⟩) := by
  refine ⟨get_by_name_lane, avatar_dict_lane, ?_⟩
  intro fetch
  simp [get_avatar_image, avatar_dict_lane]

/-- A fuelled scan of the empty list is empty, whatever the fuel. -/
theorem replaceCharsAux_nil (pat repl : List Char) (fuel : Nat) :
    replaceCharsAux pat repl fuel [] = [] := by
  cases fuel <;> rfl

/-- Every list is a prefix of itself. -/
theorem isPrefixOf_self (l : List Char) : l.isPrefixOf l = true := by
  induction l with
  | nil => rfl
  | cons c l ih => simp [List.isPrefixOf, ih]

/-- Removing a pattern that starts with `'.'` from `l ++ pattern` leaves
exactly `l` when `l` contains no `'.'`: the scan skips every character of
`l` and erases the one occurrence at the end. -/
theorem replaceCharsAux_strip (ps : List Char) :
    ∀ l : List Char, (∀ c ∈ l, c ≠ '.') → ∀ fuel : Nat,
      l.length + (ps.length + 1) ≤ fuel →
      replaceCharsAux ('.' :: ps) [] fuel (l ++ '.' :: ps) = l := by
  intro l
  induction l with
  | nil =>
    intro _ fuel hf
    cases fuel with
    | zero => omega
    | succ f =>
      rw [List.nil_append, replaceCharsAux]
      simp only [isPrefixOf_self, ne_eq, reduceCtorEq, not_false_iff,
        and_true, if_true, List.length_cons, Nat.add_sub_cancel,
        List.drop_length, List.nil_append]
      exact replaceCharsAux_nil _ _ _
  | cons c l ih =>
    intro hl fuel hf
    cases fuel with
    | zero => omega
    | succ f =>
      have hc : c ≠ '.' := hl c (List.mem_cons_self _ _)
      have h1 : ('.' == c) = false := beq_eq_false_iff_ne.mpr (Ne.symm hc)
      have hpre : ('.' :: ps).isPrefixOf (c :: (l ++ '.' :: ps)) = false := by
        show ('.' == c && ps.isPrefixOf (l ++ '.' :: ps)) = false
        rw [h1, Bool.false_and]
      rw [List.cons_append, replaceCharsAux]
      simp only [hpre, Bool.false_eq_true, false_and, if_false]
      rw [ih (fun x hx => hl x (List.mem_cons_of_mem _ hx)) f (by
        simp only [List.length_cons] at hf; omega)]

/-- `str.replace('.png', '')` on a filename `stem ++ ".png"` whose stem has
no dot strips exactly the extension. -/
theorem pyReplace_strip_png (stem : String)
    (h : ∀ c ∈ stem.data, c ≠ '.') :
    pyReplace (stem ++ ".png") ".png" "" = stem := by
  have hdata : (stem ++ ".png").data
      = stem.data ++ '.' :: ['p', 'n', 'g'] := by
    cases stem
    rfl
  show String.mk (replaceCharsAux _ _ _ _) = stem
  rw [hdata]
  rw [replaceCharsAux_strip ['p', 'n', 'g'] stem.data h _ (by
    simp [List.length_append])]

/-- C8: the cited catalog builder (src/main.py lines 250-254) derives
`name` by stripping the recognized `.png` extension (for any stem without
a dot, `from_filename (stem ++ ".png")` has `name = stem`), derives
`imageUrl` by joining the configured base URL with the filename after
encoding spaces as `%20`, maps a filename list positionally (the `i`-th
record comes from the `i`-th filename, so input order is preserved), and
turns the empty input list into the empty catalog; concretely, the
variant-2 startup catalog is the expected five records in input order. -/
theorem catalog_builder_spec :
    (∀ stem : String, (∀ c ∈ stem.data, c ≠ '.') →
      (Avatar.from_filename_v2 (stem ++ ".png")).name = stem) ∧
    (∀ fn : String,
      (Avatar.from_filename_v2 fn).imageurl
        = BASE_AVATAR_URL ++ pyReplace fn " " "%20") ∧
    (∀ fns : List String,
      (fns.map Avatar.from_filename_v2).length = fns.length ∧
      ∀ i (h1 : i < (fns.map Avatar.from_filename_v2).length)
          (h2 : i < fns.length),
        (fns.map Avatar.from_filename_v2).get ⟨i, h1⟩
          = Avatar.from_filename_v2 (fns.get ⟨i, h2⟩)) ∧
    (([] : List String).map Avatar.from_filename_v2 = []) ∧
    avatar_cache_v2.map (fun a => a.name)
      = ["Abraham Baker", "Adem Lane", "Adil Floyd", "Adriana O'Sullivan",
         "Alec Whitten"] ∧
    avatar_cache_v2.map (fun a => a.imageurl)
      = ["http://www.tam-files.toko-aplikasi.my.id/images/avatars/Abraham%20Baker.png",
         "http://www.tam-files.toko-aplikasi.my.id/images/avatars/Adem%20Lane.png",
         "http://www.tam-files.toko-aplikasi.my.id/images/avatars/Adil%20Floyd.png",
         "http://www.tam-files.toko-aplikasi.my.id/images/avatars/Adriana%20O'Sullivan.png",
         "http://www.tam-files.toko-aplikasi.my.id/images/avatars/Alec%20Whitten.png"] := by
  refine ⟨?_, fun fn => rfl, fun fns => ⟨List.length_map _ _, ?_⟩,
    rfl, by decide, by decide⟩
  · intro stem h
    show pyReplace (stem ++ ".png") ".png" "" = stem
    exact pyReplace_strip_png stem h
  · intro i h1 h2
    simp [List.get_eq_getElem, List.getElem_map]

/-- C8 witness: stripping and encoding at the concrete filename
"Abraham Baker.png". -/
theorem catalog_builder_spec_witness :
    (Avatar.from_filename_v2 ("Abraham Baker" ++ ".png")).name
      = "Abraham Baker" :=
  catalog_builder_spec.1 "Abraham Baker" (by decide)

/-- Folding one more record into the index is a single overwriting
assignment under its lowercased name. -/
theorem buildDict_concat (l : List Avatar) (a : Avatar) :
    buildDict (l ++ [a]) = dictInsert (buildDict l) (pyLower a.name) a := by
  unfold buildDict
  rw [List.foldl_append]
  rfl

/-- The index is a function of the record list alone: looking up `k`
returns the LAST record, in list order, whose lowercased name is `k`. -/
theorem buildDict_lookup (cache : List Avatar) (k : String) :
    buildDict cache k
      = (cache.filter (fun a => pyLower a.name == k)).getLast? := by
  induction cache using List.reverseRecOn with
  | nil => rfl
  | append_singleton l a ih =>
    rw [buildDict_concat, List.filter_append]
    show (if k = pyLower a.name then some a else buildDict l k) = _
    by_cases hk : pyLower a.name = k
    · simp only [List.filter_cons, List.filter_nil, hk, beq_self_eq_true,
        if_true, List.getLast?_concat]
    · have hf : (List.filter (fun a => pyLower a.name == k) [a]) = [] := by
        simp [List.filter_cons, hk]
      rw [hf, List.append_nil, ih]
      have hne : ¬ k = pyLower a.name := fun h => hk h.symm
      simp [hne]

/-- C9: the lowercased-name index is fully derived from the ordered record
list: lookup under `k` is exactly the last record in list order whose
lowercased name is `k` (last-write-wins); consequently every record's
lowercased name resolves to some record of the list with the same
lowercased name; and on the concrete two-record catalog built from
`"Adem Lane.png"` and `"ADEM LANE.png"` (which collide at the key
"adem lane") the index holds the later record while both remain in the
ordered list. -/
theorem index_spec :
    (∀ (cache : List Avatar) (k : String),
      buildDict cache k
        = (cache.filter (fun a => pyLower a.name == k)).getLast?) ∧
    (∀ (cache : List Avatar) (a : Avatar), a ∈ cache →
      ∃ b, buildDict cache (pyLower a.name) = some b ∧ b ∈ cache ∧
        pyLower b.name = pyLower a.name) ∧
    buildDict (["Adem Lane.png", "ADEM LANE.png"].map Avatar.from_filename)
        "adem lane"
      = some (Avatar.from_filename "ADEM LANE.png") ∧
    Avatar.from_filename "Adem Lane.png"
        ∈ ["Adem Lane.png", "ADEM LANE.png"].map Avatar.from_filename ∧
    Avatar.from_filename "ADEM LANE.png"
        ∈ ["Adem Lane.png", "ADEM LANE.png"].map Avatar.from_filename ∧
    Avatar.from_filename "Adem Lane.png"
        ≠ Avatar.from_filename "ADEM LANE.png" := by
  refine ⟨buildDict_lookup, ?_, by decide, by decide, by decide, by decide⟩
  intro cache a ha
  rw [buildDict_lookup]
  have hmem : a ∈ cache.filter
      (fun x => pyLower x.name == pyLower a.name) :=
    List.mem_filter.mpr ⟨ha, by simp⟩
  have hne := List.ne_nil_of_mem hmem
  refine ⟨(cache.filter _).getLast hne,
    List.getLast?_eq_getLast_of_ne_nil hne, ?_, ?_⟩
  · exact List.mem_of_mem_filter (List.getLast_mem hne)
  · have hb := List.of_mem_filter (List.getLast_mem hne)
    exact beq_iff_eq.mp hb

/-- C9 witness: the derived-index law applied to the head of the
duplicate-key catalog. -/
theorem index_spec_witness :
    ∃ b, buildDict (["Adem Lane.png", "ADEM LANE.png"].map
          Avatar.from_filename)
        (pyLower (Avatar.from_filename "Adem Lane.png").name) = some b ∧
      b ∈ ["Adem Lane.png", "ADEM LANE.png"].map Avatar.from_filename ∧
      pyLower b.name = pyLower (Avatar.from_filename "Adem Lane.png").name :=
  index_spec.2.1 (["Adem Lane.png", "ADEM LANE.png"].map Avatar.from_filename)
    (Avatar.from_filename "Adem Lane.png") (by decide)

/-- C2 witness: the order-preservation half of the amended claim applied at
a concrete search term and window. -/
theorem search_filter_spec_witness :
    ((get_all_avatars avatar_cache 0 5 (some "xyz")).map
      (fun r => r.name)).Sublist (avatar_cache.map (fun a => a.name)) :=
  search_filter_spec.1 "xyz" 0 5

/-- C5 witness: the total-count equation of the stats claim. -/
theorem stats_spec_witness :
    (get_avatar_stats avatar_cache).total_avatars = avatar_cache.length :=
  stats_spec.1

/-- C10 witness: the proxy's 404 on the fallback-only name "Lane" at a
concrete fetch function. -/
theorem partial_match_vs_proxy_witness :
    get_avatar_image avatar_dict (fun _ => [0]) "Lane"
      = .error ⟨404, none⟩ :=
  partial_match_vs_proxy.2.2 (fun _ => [0])
